import Mathlib

/-
Shallow embedding of src/homework.py (a fitness-tracker calculator).
Numbers are modelled by rationals: Python ints and floats enter the same
arithmetic expressions, and every constant appearing in the source
(0.65, 1.38, 0.035, 0.029, 1.1, 18, 20, 60, 1000) is exactly representable.
Python's floor-division operator on numbers is modelled by Int.floor of the
true quotient, which matches Python's to-negative-infinity semantics.
-/

namespace Homework

/-- Python's floor-division operator on numbers: math.floor of the true
quotient, returned in the numeric domain. -/
def floorDiv (a b : ℚ) : ℚ := (⌊a / b⌋ : ℤ)

/-- Rounding of a scaled value to the nearest integer, ties to even, as
CPython's fixed-point formatting does at the decimal level. -/
def roundHalfEven (q : ℚ) : ℤ :=
  let n := ⌊q⌋
  if q - n > 1 / 2 then n + 1
  else if q - n < 1 / 2 then n
  else if n % 2 = 0 then n else n + 1

/-- The three characters after the decimal point when a magnitude of
thousandths is printed with three fixed decimal places. -/
def fracDigits3 (m : ℕ) : String :=
  String.mk [Nat.digitChar (m / 100 % 10), Nat.digitChar (m / 10 % 10),
    Nat.digitChar (m % 10)]

/-- Python's fixed-point format specifier with precision 3 applied to a
number: sign, integer part, point, exactly three fractional digits. -/
def formatFix3 (q : ℚ) : String :=
  let n := roundHalfEven (q * 1000)
  (if n < 0 then "-" else "") ++ Nat.repr (n.natAbs / 1000) ++ "." ++
    fracDigits3 n.natAbs

/-- The dataclass InfoMessage of src/homework.py. -/
structure InfoMessage where
  training_type : String
  duration : ℚ
  distance : ℚ
  speed : ℚ
  calories : ℚ
  deriving DecidableEq

/-- InfoMessage.get_message: the format template of the message field
applied to the five fields (Python's str.format with the source's
template string in which each numeric slot is a fixed-point 3-decimal
slot). -/
def get_message (i : InfoMessage) : String :=
  "Тип тренировки: " ++ i.training_type ++ "; Длительность: " ++
    formatFix3 i.duration ++ " ч.; Дистанция: " ++
    formatFix3 i.distance ++ " км; Ср. скорость: " ++
    formatFix3 i.speed ++ " км/ч; Потрачено ккал: " ++
    formatFix3 i.calories ++ "."

/-- The class hierarchy of src/homework.py, as the three concrete variants
the dispatcher can construct: Running(action, duration, weight),
SportsWalking(action, duration, weight, height),
Swimming(action, duration, weight, length_pool, count_pool).
The abstract base Training is never instantiated by the program. -/
inductive Training
  | running (action : ℚ) (duration : ℚ) (weight : ℚ)
  | sportsWalking (action : ℚ) (duration : ℚ) (weight : ℚ) (height : ℚ)
  | swimming (action : ℚ) (duration : ℚ) (weight : ℚ) (length_pool : ℚ)
      (count_pool : ℚ)
  deriving DecidableEq

/-- Class constant Training.M_IN_KM = 1000, shared by all variants. -/
def M_IN_KM : ℚ := 1000

/-- Class constant Training.MIN_IN_HOUR = 60, shared by all variants. -/
def MIN_IN_HOUR : ℚ := 60

/-- Class constant LEN_STEP: 0.65 on the base class (inherited by Running
and SportsWalking), overridden to 1.38 on Swimming. -/
def LEN_STEP : Training → ℚ
  | .swimming _ _ _ _ _ => 1.38
  | _ => 0.65

/-- Field self.action, set by Training.__init__ for every variant. -/
def action : Training → ℚ
  | .running a _ _ => a
  | .sportsWalking a _ _ _ => a
  | .swimming a _ _ _ _ => a

/-- Field self.duration_hour, set by Training.__init__ for every variant. -/
def duration_hour : Training → ℚ
  | .running _ d _ => d
  | .sportsWalking _ d _ _ => d
  | .swimming _ d _ _ _ => d

/-- Field self.weight, set by Training.__init__ for every variant. -/
def weight : Training → ℚ
  | .running _ _ w => w
  | .sportsWalking _ _ w _ => w
  | .swimming _ _ w _ _ => w

/-- Python's self.__class__.__name__ on each variant. -/
def className : Training → String
  | .running _ _ _ => "Running"
  | .sportsWalking _ _ _ _ => "SportsWalking"
  | .swimming _ _ _ _ _ => "Swimming"

/-- Training.get_distance: action * LEN_STEP / M_IN_KM, inherited by all
variants (LEN_STEP resolves per variant). -/
def get_distance (t : Training) : ℚ :=
  action t * LEN_STEP t / M_IN_KM

/-- Training.get_mean_speed: get_distance / duration_hour, overridden by
Swimming to length_pool * count_pool / M_IN_KM / duration_hour. -/
def get_mean_speed : Training → ℚ
  | .swimming _ d _ lp cp => lp * cp / M_IN_KM / d
  | t => get_distance t / duration_hour t

/-- The per-variant get_spent_calories overrides:
Running: (18 * speed - 20) * weight / M_IN_KM * MIN_IN_HOUR * duration;
SportsWalking: (0.035 * weight + (speed ** 2 // height) * 0.029 * weight)
* MIN_IN_HOUR * duration;
Swimming: (speed + 1.1) * 2 * weight. -/
def get_spent_calories : Training → ℚ
  | .running a d w =>
      (18 * get_mean_speed (.running a d w) - 20) * w / M_IN_KM *
        MIN_IN_HOUR * d
  | .sportsWalking a d w h =>
      (0.035 * w +
        floorDiv (get_mean_speed (.sportsWalking a d w h) ^ 2) h *
          0.029 * w) * MIN_IN_HOUR * d
  | .swimming a d w lp cp =>
      (get_mean_speed (.swimming a d w lp cp) + 1.1) * 2 * w

/-- Training.show_training_info: builds the InfoMessage from the class
name, duration and the three computed metrics. -/
def show_training_info (t : Training) : InfoMessage :=
  ⟨className t, duration_hour t, get_distance t, get_mean_speed t,
    get_spent_calories t⟩

/-- The two ways read_package can fail: ValueError on an unrecognized
workout code (raised explicitly by the source), and Python's TypeError
when the positional argument list unpacked into the variant constructor
has the wrong length. -/
inductive DispatchError
  | invalidActivityCode
  | argumentCountMismatch
  deriving DecidableEq

/-- read_package of src/homework.py: look the workout code up in the dict
mapping "SWM"/"RUN"/"WLK" to the variant constructors and apply the
constructor to the unpacked data list; raise ValueError when the code is
not a key. A data list whose length does not match the constructor's
arity makes the call itself raise (TypeError), modelled as the
argumentCountMismatch error. -/
def read_package (workout_type : String) (data : List ℚ) :
    Except DispatchError Training :=
  if workout_type = "SWM" then
    match data with
    | [a, d, w, lp, cp] => .ok (.swimming a d w lp cp)
    | _ => .error .argumentCountMismatch
  else if workout_type = "RUN" then
    match data with
    | [a, d, w] => .ok (.running a d w)
    | _ => .error .argumentCountMismatch
  else if workout_type = "WLK" then
    match data with
    | [a, d, w, h] => .ok (.sportsWalking a d w h)
    | _ => .error .argumentCountMismatch
  else .error .invalidActivityCode

/-- A string of the shape produced by a fixed-point 3-decimal numeric
field: something, a decimal point, then exactly three digit characters. -/
def hasFix3 (s : String) : Prop :=
  ∃ a b, s = a ++ "." ++ b ∧ b.length = 3 ∧ b.toList.all Char.isDigit = true

/-- Helper: Nat.digitChar of anything reduced mod ten is a digit
character. -/
lemma digitChar_mod10_isDigit (x : ℕ) :
    (Nat.digitChar (x % 10)).isDigit = true := by
  have h : x % 10 < 10 := Nat.mod_lt x (by norm_num)
  have h10 : ∀ m : Fin 10, (Nat.digitChar m.val).isDigit = true := by decide
  exact h10 ⟨x % 10, h⟩

/-- Helper: the fixed-point 3-decimal formatter always emits a decimal
point followed by exactly three digit characters. -/
lemma formatFix3_hasFix3 (q : ℚ) : hasFix3 (formatFix3 q) := by
  refine ⟨(if roundHalfEven (q * 1000) < 0 then "-" else "") ++
      Nat.repr ((roundHalfEven (q * 1000)).natAbs / 1000),
    fracDigits3 (roundHalfEven (q * 1000)).natAbs, rfl, rfl, ?_⟩
  simp [fracDigits3, List.all, digitChar_mod10_isDigit]

end Homework

namespace Homework

/-- C1: for every SportsWalking instance with nonzero height,
get_spent_calories is (0.035 * weight + floor(speed^2 / height) * 0.029 *
weight) * 60 * duration, where the inner quotient is the floor of the
true quotient, not the true quotient itself: floor of 5 / 3 is 1 while
5 / 3 is not 1. -/
theorem sportsWalking_calories_floor_division (a d w h : ℚ) (hh : h ≠ 0) :
    get_spent_calories (.sportsWalking a d w h) =
      (0.035 * w +
        (⌊get_mean_speed (Training.sportsWalking a d w h) ^ 2 / h⌋ : ℤ) *
          0.029 * w) * 60 * d ∧
    floorDiv 5 3 = 1 ∧ (5 : ℚ) / 3 ≠ 1 := by
  refine ⟨rfl, ?_, by norm_num⟩
  norm_num [floorDiv]

/-- Witness for C1 at the driver's walking record (9000, 1, 75, 180). -/
theorem sportsWalking_calories_floor_division_witness :
    (180 : ℚ) ≠ 0 ∧
    (get_spent_calories (.sportsWalking 9000 1 75 180) =
      (0.035 * 75 +
        (⌊get_mean_speed (Training.sportsWalking 9000 1 75 180) ^ 2 /
          180⌋ : ℤ) * 0.029 * 75) * 60 * 1 ∧
      floorDiv 5 3 = 1 ∧ (5 : ℚ) / 3 ≠ 1) :=
  ⟨by norm_num, sportsWalking_calories_floor_division 9000 1 75 180
    (by norm_num)⟩

/-- C2 counterexample: on the RUN reference record (15000, 1, 75) the code
computes (18 * 9.75 - 20) * 75 / 1000 * 60 * 1 = 699.75 calories, not the
693.000 the claim states. -/
theorem run_reference_calories_counterexample :
    read_package "RUN" [15000, 1, 75] = .ok (.running 15000 1 75) ∧
    get_spent_calories (.running 15000 1 75) = 699.75 ∧
    (699.75 : ℚ) ≠ 693 := by
  refine ⟨rfl, ?_, by norm_num⟩
  norm_num [get_spent_calories, get_mean_speed, get_distance, action,
    duration_hour, LEN_STEP, M_IN_KM, MIN_IN_HOUR]

/-- C2 amended: createActivity("RUN", [15000, 1, 75]) yields distance
9.750, mean speed 9.750 and calories 699.750. -/
theorem run_reference_scenario :
    read_package "RUN" [15000, 1, 75] = .ok (.running 15000 1 75) ∧
    get_distance (.running 15000 1 75) = 9.75 ∧
    get_mean_speed (.running 15000 1 75) = 9.75 ∧
    get_spent_calories (.running 15000 1 75) = 699.75 := by
  refine ⟨rfl, ?_, ?_, ?_⟩ <;>
    norm_num [get_spent_calories, get_mean_speed, get_distance, action,
      duration_hour, LEN_STEP, M_IN_KM, MIN_IN_HOUR]

/-- C3 counterexample: on the SWM reference record (720, 1, 80, 25, 40)
the code computes distance 720 * 1.38 / 1000 = 0.9936 (Swimming overrides
LEN_STEP to 1.38), not the 0.468 the claim states (0.468 would be
720 * 0.65 / 1000, the base-class stride constant). -/
theorem swim_reference_distance_counterexample :
    read_package "SWM" [720, 1, 80, 25, 40] =
      .ok (.swimming 720 1 80 25 40) ∧
    get_distance (.swimming 720 1 80 25 40) = 0.9936 ∧
    (0.9936 : ℚ) ≠ 0.468 := by
  refine ⟨rfl, ?_, by norm_num⟩
  norm_num [get_distance, action, LEN_STEP, M_IN_KM]

/-- C3 amended: createActivity("SWM", [720, 1, 80, 25, 40]) yields
distance 0.9936 (from action * 1.38 / 1000, unused for speed), mean speed
25 * 40 / 1000 / 1 = 1.000 and calories (1.000 + 1.1) * 2 * 80 =
336.000. -/
theorem swim_reference_scenario :
    read_package "SWM" [720, 1, 80, 25, 40] =
      .ok (.swimming 720 1 80 25 40) ∧
    get_distance (.swimming 720 1 80 25 40) = 0.9936 ∧
    get_mean_speed (.swimming 720 1 80 25 40) = 1 ∧
    get_spent_calories (.swimming 720 1 80 25 40) = 336 := by
  refine ⟨rfl, ?_, ?_, ?_⟩ <;>
    norm_num [get_spent_calories, get_mean_speed, get_distance, action,
      LEN_STEP, M_IN_KM]

/-- C4: Swimming's mean speed is length_pool * count_pool / 1000 /
duration, and it coincides for any two Swimming instances agreeing on
(length_pool, count_pool, duration) whatever their action and weight. -/
theorem swimming_mean_speed_pool_model (a d w lp cp a2 w2 : ℚ)
    (hd : d ≠ 0) :
    get_mean_speed (.swimming a d w lp cp) = lp * cp / 1000 / d ∧
    get_mean_speed (.swimming a d w lp cp) =
      get_mean_speed (.swimming a2 d w2 lp cp) :=
  ⟨rfl, rfl⟩

/-- Witness for C4 at the driver's swimming record with a second instance
differing in action and weight. -/
theorem swimming_mean_speed_pool_model_witness :
    (1 : ℚ) ≠ 0 ∧
    (get_mean_speed (.swimming 720 1 80 25 40) = 25 * 40 / 1000 / 1 ∧
      get_mean_speed (.swimming 720 1 80 25 40) =
        get_mean_speed (.swimming 3 1 55 25 40)) :=
  ⟨by norm_num, swimming_mean_speed_pool_model 720 1 80 25 40 3 55
    (by norm_num)⟩

/-- C5: every variant's get_distance is action * LEN_STEP / 1000 with the
single inherited formula, and LEN_STEP is the per-variant constant 1.38
for Swimming and 0.65 for the other two variants. -/
theorem distance_uniform_formula (t : Training) :
    get_distance t = action t * LEN_STEP t / 1000 ∧
    LEN_STEP t = (if className t = "Swimming" then 1.38 else 0.65) := by
  cases t <;> exact ⟨rfl, by simp [LEN_STEP, className]⟩

/-- C6: every Running instance's get_spent_calories is
(18 * mean speed - 20) * weight / 1000 * 60 * duration. -/
theorem running_calories_formula (a d w : ℚ) (hd : d ≠ 0) :
    get_spent_calories (.running a d w) =
      (18 * get_mean_speed (.running a d w) - 20) * w / 1000 * 60 * d :=
  rfl

/-- Witness for C6 at the driver's running record (15000, 1, 75). -/
theorem running_calories_formula_witness :
    (1 : ℚ) ≠ 0 ∧
    get_spent_calories (.running 15000 1 75) =
      (18 * get_mean_speed (.running 15000 1 75) - 20) * 75 / 1000 * 60 *
        1 :=
  ⟨by norm_num, running_calories_formula 15000 1 75 (by norm_num)⟩

/-- C7: read_package rejects every code outside RUN / WLK / SWM with the
invalid-activity-code error for every argument list, and on the three
recognized codes builds the matching variant from the positional
arguments. -/
theorem read_package_dispatch (code : String) (args : List ℚ)
    (h1 : code ≠ "RUN") (h2 : code ≠ "WLK") (h3 : code ≠ "SWM") :
    read_package code args = .error .invalidActivityCode ∧
    (∀ a d w ht lp cp : ℚ,
      read_package "RUN" [a, d, w] = .ok (.running a d w) ∧
      read_package "WLK" [a, d, w, ht] = .ok (.sportsWalking a d w ht) ∧
      read_package "SWM" [a, d, w, lp, cp] =
        .ok (.swimming a d w lp cp)) := by
  refine ⟨?_, fun a d w ht lp cp => ⟨rfl, rfl, rfl⟩⟩
  simp [read_package, h1, h2, h3]

/-- Witness for C7 at the unknown code XYZ with arguments [1, 2, 3]. -/
theorem read_package_dispatch_witness :
    "XYZ" ≠ "RUN" ∧ "XYZ" ≠ "WLK" ∧ "XYZ" ≠ "SWM" ∧
    (read_package "XYZ" [1, 2, 3] =
        .error .invalidActivityCode ∧
      (∀ a d w ht lp cp : ℚ,
        read_package "RUN" [a, d, w] = .ok (.running a d w) ∧
        read_package "WLK" [a, d, w, ht] = .ok (.sportsWalking a d w ht) ∧
        read_package "SWM" [a, d, w, lp, cp] =
          .ok (.swimming a d w lp cp))) :=
  ⟨by decide, by decide, by decide,
    read_package_dispatch "XYZ" [1, 2, 3] (by decide) (by decide)
      (by decide)⟩

/-- C8: the rendered message of every report built by show_training_info
is the fixed template around the variant's class name, each of the four
numeric fields carries exactly three digit characters after a decimal
point whatever the value, the message ends with a period, and the
embedded name is one of Running, SportsWalking, Swimming. -/
theorem message_format (t : Training) :
    get_message (show_training_info t) =
      "Тип тренировки: " ++ className t ++ "; Длительность: " ++
        formatFix3 (duration_hour t) ++ " ч.; Дистанция: " ++
        formatFix3 (get_distance t) ++ " км; Ср. скорость: " ++
        formatFix3 (get_mean_speed t) ++ " км/ч; Потрачено ккал: " ++
        formatFix3 (get_spent_calories t) ++ "." ∧
    (∃ s, get_message (show_training_info t) = s ++ ".") ∧
    hasFix3 (formatFix3 (duration_hour t)) ∧
    hasFix3 (formatFix3 (get_distance t)) ∧
    hasFix3 (formatFix3 (get_mean_speed t)) ∧
    hasFix3 (formatFix3 (get_spent_calories t)) ∧
    (className t = "Running" ∨ className t = "SportsWalking" ∨
      className t = "Swimming") := by
  refine ⟨rfl, ⟨_, rfl⟩, formatFix3_hasFix3 _, formatFix3_hasFix3 _,
    formatFix3_hasFix3 _, formatFix3_hasFix3 _, ?_⟩
  cases t <;> simp [className]

/-- C9: for each recognized code, an argument list whose length differs
from that code's arity (3 for RUN, 4 for WLK, 5 for SWM) makes
read_package fail with the argument-count-mismatch error. -/
theorem read_package_arity (args : List ℚ) :
    (args.length ≠ 3 →
      read_package "RUN" args = .error .argumentCountMismatch) ∧
    (args.length ≠ 4 →
      read_package "WLK" args = .error .argumentCountMismatch) ∧
    (args.length ≠ 5 →
      read_package "SWM" args = .error .argumentCountMismatch) := by
  refine ⟨fun h => ?_, fun h => ?_, fun h => ?_⟩ <;>
  · rcases args with _ | ⟨a, _ | ⟨b, _ | ⟨c, _ | ⟨e, _ | ⟨f,
      _ | ⟨g, rest⟩⟩⟩⟩⟩⟩ <;> simp_all [read_package]

/-- Witness for C9 feeding a two-element list to the RUN code. -/
theorem read_package_arity_witness :
    (([(1 : ℚ), 2] : List ℚ).length ≠ 3) ∧
    read_package "RUN" [1, 2] = .error .argumentCountMismatch :=
  ⟨by decide, (read_package_arity [1, 2]).1 (by decide)⟩

/-- C10: a Running and a SportsWalking instance sharing action and
duration (weights and height arbitrary) agree on get_distance and
get_mean_speed, so their reports agree on the duration, distance and
speed fields. -/
theorem run_walk_share_distance_speed (a d w1 w2 h : ℚ) (hd : d ≠ 0) :
    get_distance (.running a d w1) =
      get_distance (.sportsWalking a d w2 h) ∧
    get_mean_speed (.running a d w1) =
      get_mean_speed (.sportsWalking a d w2 h) ∧
    (show_training_info (.running a d w1)).duration =
      (show_training_info (.sportsWalking a d w2 h)).duration ∧
    (show_training_info (.running a d w1)).distance =
      (show_training_info (.sportsWalking a d w2 h)).distance ∧
    (show_training_info (.running a d w1)).speed =
      (show_training_info (.sportsWalking a d w2 h)).speed :=
  ⟨rfl, rfl, rfl, rfl, rfl⟩

/-- Witness for C10 pairing the driver's running record with a walking
instance of the same action and duration. -/
theorem run_walk_share_distance_speed_witness :
    (1 : ℚ) ≠ 0 ∧
    (get_distance (.running 15000 1 75) =
        get_distance (.sportsWalking 15000 1 90 180) ∧
      get_mean_speed (.running 15000 1 75) =
        get_mean_speed (.sportsWalking 15000 1 90 180) ∧
      (show_training_info (.running 15000 1 75)).duration =
        (show_training_info (.sportsWalking 15000 1 90 180)).duration ∧
      (show_training_info (.running 15000 1 75)).distance =
        (show_training_info (.sportsWalking 15000 1 90 180)).distance ∧
      (show_training_info (.running 15000 1 75)).speed =
        (show_training_info (.sportsWalking 15000 1 90 180)).speed) :=
  ⟨by norm_num, run_walk_share_distance_speed 15000 1 75 90 180
    (by norm_num)⟩

end Homework
